import Mathlib

/-!
Shallow embedding of the library-dashboard data transformations of
`src/p2.py` (pandas/streamlit): the summary aggregator, the three flag
detectors, the search step of `main`, and the Excel-export wrapper.

A pandas `DataFrame` is modelled as a list of column names together with
an ordered list of rows; a row is an association list from column name to
cell value.  A cell is a string, a parsed date (a timestamp in seconds,
`pd.Timestamp`), or missing (`NaN`/`NaT`).  Looking up a column that the
row does not bind yields the missing value, matching a `NaN` cell.
-/

namespace LibraryDashboard

/-- A cell of the dataset: text, an integer (the `Year` column), a parsed
date (`pd.Timestamp`, modelled as seconds since the epoch), or a missing
value (`NaN`/`NaT`). -/
inductive Value where
  | str (s : String)
  | int (n : Int)
  | date (t : Int)
  | null
deriving DecidableEq, Repr

/-- One row of the dataset: an association list from column name to cell. -/
abbrev Row := List (String × Value)

/-- Cell of row `r` at column `c`; an unbound column is a missing value. -/
def getVal (r : Row) (c : String) : Value :=
  (List.lookup c r).getD Value.null

/-- A pandas DataFrame: its column names and its ordered rows. -/
structure DataFrame where
  columns : List String
  rows : List Row
deriving DecidableEq, Repr

/-- The frame `pd.DataFrame()`: no columns, no rows. -/
def emptyDF : DataFrame := { columns := [], rows := [] }

/-- Fixed-shape result of `get_book_summary` (p2.py lines 32-53). -/
structure BookSummary where
  totalBooks : Nat
  available : Nat
  issued : Nat
  returned : Nat
  damaged : Nat
  lost : Nat
  toBeReplaced : Nat
deriving DecidableEq, Repr

/-- Rows of `df` whose cell at `col` equals the string `s`
(`df[df[col] == s]`; a `NaN` cell compares unequal to every string). -/
def countEq (df : DataFrame) (col s : String) : Nat :=
  (df.rows.filter (fun r => decide (getVal r col = Value.str s))).length

/-- p2.py lines 32-53, `get_book_summary`: the empty frame gets the explicit
all-zero record; otherwise each count is guarded by presence of its column. -/
def get_book_summary (df : DataFrame) : BookSummary :=
  if df.rows = [] then
    { totalBooks := 0, available := 0, issued := 0, returned := 0,
      damaged := 0, lost := 0, toBeReplaced := 0 }
  else
    { totalBooks := df.rows.length
      available := if "Status" ∈ df.columns then countEq df "Status" "Available" else 0
      issued := if "Status" ∈ df.columns then countEq df "Status" "Issued" else 0
      returned := if "Status" ∈ df.columns then countEq df "Status" "Returned" else 0
      damaged := if "Condition" ∈ df.columns then countEq df "Condition" "Damaged" else 0
      lost := if "Condition" ∈ df.columns then countEq df "Condition" "Lost" else 0
      toBeReplaced := if "Condition" ∈ df.columns then countEq df "Condition" "To Be Replaced" else 0 }

/-- The `flagged_conditions` list of p2.py line 61. -/
def flagged_conditions : List Value :=
  [Value.str "Damaged", Value.str "Lost", Value.str "To Be Replaced"]

/-- p2.py lines 56-62, `get_flagged_books`: empty frame or missing
`Condition` column gives `pd.DataFrame()`; otherwise
`df[df['Condition'].isin(flagged_conditions)]` (a `NaN` cell is in no list). -/
def get_flagged_books (df : DataFrame) : DataFrame :=
  if df.rows = [] ∨ "Condition" ∉ df.columns then emptyDF
  else { columns := df.columns
         rows := df.rows.filter (fun r => decide (getVal r "Condition" ∈ flagged_conditions)) }

/-- Seconds in a day, the unit conversion behind `Timedelta.days`. -/
def secondsPerDay : Int := 86400

/-- The condition `(today - issue).dt.days > 30` of p2.py lines 79 and 83:
`Timedelta.days` floors the elapsed seconds to whole days, and a missing
issue date gives `NaN` days, which compares false against 30. -/
def issueOverdue (today : Int) (issue : Value) : Bool :=
  match issue with
  | Value.date t => decide (30 < Int.fdiv (today - t) secondsPerDay)
  | _ => false

/-- The condition `Return_Date.isna()` of p2.py line 78. -/
def isNa (v : Value) : Bool :=
  match v with
  | Value.null => true
  | _ => false

/-- p2.py lines 65-86, `get_overdue_books`, with the evaluation instant
`pd.Timestamp.now()` made an explicit parameter `today`: empty frame or a
schema missing `Status` or `Issue_Date` gives `pd.DataFrame()`; otherwise the
rows with `Status == 'Issued'` are selected, and of those the ones issued
more than 30 whole days before `today`, additionally requiring a missing
`Return_Date` when that column is in the schema. -/
def get_overdue_books (df : DataFrame) (today : Int) : DataFrame :=
  if df.rows = [] ∨ "Status" ∉ df.columns ∨ "Issue_Date" ∉ df.columns then emptyDF
  else
    let issued_books := df.rows.filter (fun r => decide (getVal r "Status" = Value.str "Issued"))
    if issued_books = [] then emptyDF
    else if "Return_Date" ∈ df.columns then
      { columns := df.columns
        rows := issued_books.filter (fun r =>
          isNa (getVal r "Return_Date") && issueOverdue today (getVal r "Issue_Date")) }
    else
      { columns := df.columns
        rows := issued_books.filter (fun r => issueOverdue today (getVal r "Issue_Date")) }

/-- String cells of column `col`, in row order; missing cells and non-text
cells are dropped, as `Series.value_counts` drops `NaN` (p2.py line 94). -/
def colStrValues (df : DataFrame) (col : String) : List String :=
  df.rows.filterMap (fun r =>
    match getVal r col with
    | Value.str s => some s
    | _ => none)

/-- The mapping `Series.value_counts` builds: each distinct occurring value
paired with its number of occurrences.  pandas orders the pairs by
descending count; the callers of p2.py use the result purely as a mapping,
so the pairs are kept here in an arbitrary duplicate-free order. -/
def value_counts (vs : List String) : List (String × Nat) :=
  vs.dedup.map (fun c => (c, vs.count c))

/-- p2.py lines 89-95, `get_underrepresented_genres` (default threshold 5):
empty frame or missing `Category` column gives an empty Series; otherwise
`genre_counts[genre_counts < threshold]`. -/
def get_underrepresented_genres (df : DataFrame) (threshold : Nat) : List (String × Nat) :=
  if df.rows = [] ∨ "Category" ∉ df.columns then []
  else (value_counts (colStrValues df "Category")).filter (fun p => decide (p.2 < threshold))

/-- Rows of `df` whose `Category` cell is the string `c`: the occurrence
count of category `c`. -/
def categoryOccurrences (df : DataFrame) (c : String) : Nat :=
  (df.rows.filter (fun r => decide (getVal r "Category" = Value.str c))).length

/-- Python `str()` of a cell, as `Series.astype(str)` produces it: a missing
value (float `NaN`) prints as the three-letter string `nan`.  A date cell is
rendered from its timestamp; no claim exercises this arm, since search runs
only over the text columns `Title`/`Authors`. -/
def pyStr (v : Value) : String :=
  match v with
  | Value.str s => s
  | Value.int n => toString n
  | Value.date t => toString t
  | Value.null => "nan"

/-- Python `str.lower()` (and pandas `Series.str.lower()`): lowercase each
character.  Character-by-character mapping, as core `String.toLower` does. -/
def strLower (s : String) : String :=
  String.mk (s.data.map Char.toLower)

/-- Does `needle` start the list `l`, character by character? -/
def startsWithL (needle l : List Char) : Bool :=
  match needle, l with
  | [], _ => true
  | _ :: _, [] => false
  | c :: cs, d :: ds => c == d && startsWithL cs ds

/-- Does `needle` occur contiguously inside `l`? -/
def occursIn (needle : List Char) (l : List Char) : Bool :=
  match l with
  | [] => needle.isEmpty
  | _ :: ds => startsWithL needle l || occursIn needle ds

/-- Substring containment, the semantics of `Series.str.contains` for the
plain (metacharacter-free) pattern strings the claims exercise. -/
def strContainsSub (haystack needle : String) : Bool :=
  occursIn needle.data haystack.data

/-- The mask of p2.py line 143 at one row:
`df[field].astype(str).str.lower().str.contains(query, na=False)`.
`astype(str)` runs first, so no cell is `NaN` when `contains` looks at it
(a missing cell has already become the string `nan`) and the `na=False`
fill never applies; `query` arrives already lowercased. -/
def rowMatches (field query : String) (r : Row) : Bool :=
  strContainsSub (strLower (pyStr (getVal r field))) query

/-- p2.py lines 140-147: the query is lowercased as entered; a falsy (empty)
query applies no filter, otherwise the frame is masked by `rowMatches`. -/
def applySearch (df : DataFrame) (field rawQuery : String) : DataFrame :=
  let q := strLower rawQuery
  if q = "" then df
  else { columns := df.columns, rows := df.rows.filter (rowMatches field q) }

/-- p2.py line 137: the text columns offered for search, in fixed order. -/
def searchColumns (df : DataFrame) : List String :=
  (["Title", "Authors"]).filter (fun c => decide (c ∈ df.columns))

/-- p2.py lines 137-149, the search step of `main`: when neither `Title` nor
`Authors` is a column of the frame no search widget exists and the frame
passes through; otherwise `applySearch` runs on the chosen field. -/
def mainSearchStep (df : DataFrame) (field rawQuery : String) : DataFrame :=
  if searchColumns df = [] then df
  else applySearch df field rawQuery

/-- One sheet of a workbook: its name, header row and data rows. -/
structure Sheet where
  name : String
  header : List String
  cells : List (List String)
deriving DecidableEq, Repr

/-- A serialized workbook, the payload of the exported byte stream. -/
structure Spreadsheet where
  sheets : List Sheet
deriving DecidableEq, Repr

/-- Modelled from the spec: the spreadsheet serialization backend
(`pd.ExcelWriter` with the xlsxwriter engine, p2.py lines 102-103) is
third-party code outside this repository.  Per §4.5 of the spec its
successful output is a single sheet named `Library_Books` whose header row
is the attribute names and which has one data row per record, in order. -/
def writeSpreadsheet (df : DataFrame) : Spreadsheet :=
  { sheets := [{ name := "Library_Books"
                 header := df.columns
                 cells := df.rows.map (fun r => df.columns.map (fun c => pyStr (getVal r c))) }] }

/-- p2.py lines 98-107, `convert_df_to_excel`, over an explicit `backend`
standing for the third-party serializer, which either yields a workbook or
fails: the `try`/`except` turns a failure into the returned `None` (after
showing `st.error`), so no exception reaches the caller. -/
def convert_df_to_excel (df : DataFrame)
    (backend : DataFrame → Except String Spreadsheet) : Option Spreadsheet :=
  match backend df with
  | Except.ok out => some out
  | Except.error _ => none

/-- p2.py lines 199-206: `main` offers the download button only when
`convert_df_to_excel` returned a payload. -/
def offersDownload (excelData : Option Spreadsheet) : Bool :=
  excelData.isSome

/-- State-passing form of `get_book_summary`: the result together with the
source collection after the call.  Lines 32-53 only read `df` (length,
column membership and boolean-mask selections, none of which writes), so
the post-state is the input frame. -/
def get_book_summary_run (df : DataFrame) : BookSummary × DataFrame :=
  (get_book_summary df, df)

/-- State-passing form of `get_flagged_books` (lines 56-62): boolean-mask
selection allocates a new frame, so the source is unchanged. -/
def get_flagged_books_run (df : DataFrame) : DataFrame × DataFrame :=
  (get_flagged_books df, df)

/-- State-passing form of `get_overdue_books` (lines 65-86): the `Issued`
selection is `.copy()`-ed before further masking, and no statement assigns
into `df`, so the source is unchanged. -/
def get_overdue_books_run (df : DataFrame) (today : Int) :
    DataFrame × DataFrame :=
  (get_overdue_books df today, df)

/-- State-passing form of `get_underrepresented_genres` (lines 89-95):
`value_counts` builds a fresh Series, so the source is unchanged. -/
def get_underrepresented_genres_run (df : DataFrame) (threshold : Nat) :
    List (String × Nat) × DataFrame :=
  (get_underrepresented_genres df threshold, df)

/-- State-passing form of the search step (lines 137-149): boolean-mask
selection allocates a new frame, so the source is unchanged. -/
def mainSearchStep_run (df : DataFrame) (field rawQuery : String) :
    DataFrame × DataFrame :=
  (mainSearchStep df field rawQuery, df)

/-- First row of the sample dataset of p2.py lines 216-225, as the loader of
`main` leaves it (dates parsed, the empty `Return_Date` cell becoming
`NaT`, here an unbound column).  `2024-01-15` is 1705276800 seconds. -/
def rowGatsby : Row :=
  [("Title", Value.str "The Great Gatsby"),
   ("Authors", Value.str "F. Scott Fitzgerald"),
   ("Status", Value.str "Available"),
   ("Condition", Value.str "Good"),
   ("Category", Value.str "Fiction"),
   ("Issue_Date", Value.date 1705276800),
   ("Year", Value.int 2020)]

/-- Second sample row of p2.py; `2024-02-01` is 1706745600 seconds. -/
def rowMockingbird : Row :=
  [("Title", Value.str "To Kill a Mockingbird"),
   ("Authors", Value.str "Harper Lee"),
   ("Status", Value.str "Issued"),
   ("Condition", Value.str "Good"),
   ("Category", Value.str "Fiction"),
   ("Issue_Date", Value.date 1706745600),
   ("Year", Value.int 2019)]

/-- Third sample row of p2.py; its empty `Issue_Date` cell parsed to `NaT`. -/
def rowNineteenEightyFour : Row :=
  [("Title", Value.str "1984"),
   ("Authors", Value.str "George Orwell"),
   ("Status", Value.str "Available"),
   ("Condition", Value.str "Damaged"),
   ("Category", Value.str "Dystopian"),
   ("Year", Value.int 2021)]

/-- The sample dataset of p2.py lines 216-225 after loading. -/
def sample_data : DataFrame :=
  { columns := ["Title", "Authors", "Status", "Condition", "Category",
                "Issue_Date", "Return_Date", "Year"]
    rows := [rowGatsby, rowMockingbird, rowNineteenEightyFour] }

/-- A record whose `Authors` cell is missing (`NaN` in the loaded frame). -/
def rowNoAuthor : Row := [("Title", Value.str "The Voynich Manuscript")]

/-- A frame holding two authored records and one with a missing `Authors`
cell: the frame on which the search mask is probed at query `nan`. -/
def searchProbeFrame : DataFrame :=
  { columns := ["Title", "Authors"]
    rows := [rowGatsby, rowMockingbird, rowNoAuthor] }

/-- A record issued at instant 0 with no recorded return. -/
def rowIssued45 : Row :=
  [("Status", Value.str "Issued"), ("Issue_Date", Value.date 0)]

/-- The same record with a recorded `Return_Date`. -/
def rowIssued45Returned : Row :=
  [("Status", Value.str "Issued"), ("Issue_Date", Value.date 0),
   ("Return_Date", Value.date (40 * 86400))]

/-- A record issued at day 35, i.e. 10 days before an evaluation at day 45. -/
def rowIssued10 : Row :=
  [("Status", Value.str "Issued"), ("Issue_Date", Value.date (35 * 86400))]

/-- The schema holding the overdue-probe records. -/
def overdueCols : List String := ["Status", "Issue_Date", "Return_Date"]

/-- Frame with the record issued 45 days before the probe instant. -/
def overdueFrame45 : DataFrame := { columns := overdueCols, rows := [rowIssued45] }

/-- Frame with that record carrying a recorded return. -/
def overdueFrame45Returned : DataFrame :=
  { columns := overdueCols, rows := [rowIssued45Returned] }

/-- Frame with the record issued 10 days before the probe instant. -/
def overdueFrame10 : DataFrame := { columns := overdueCols, rows := [rowIssued10] }

/-- The probe instant for the overdue examples: day 45. -/
def probeNow : Int := 45 * 86400

/-- A filter by a conjunction equals the two filters run in sequence. -/
theorem filter_and_split (p q : Row → Bool) (l : List Row) :
    l.filter (fun r => p r && q r) = (l.filter p).filter q := by
  induction l with
  | nil => rfl
  | cons a as ih =>
    by_cases hp : p a = true
    · by_cases hq : q a = true <;> simp [List.filter_cons, hp, hq, ih]
    · simp [List.filter_cons, hp, ih]

/-- C4: for every collection, `get_book_summary` returns `Total Books` equal
to the number of records; each of `Available`/`Issued`/`Returned` equal to
the number of records whose `Status` exactly (case-sensitively) equals the
respective literal, and 0 whenever the `Status` column is absent; each of
`Damaged`/`Lost`/`To Be Replaced` likewise over `Condition`; and on an
empty collection every field is 0. -/
theorem book_summary_spec (df : DataFrame) :
    get_book_summary df =
      { totalBooks := df.rows.length
        available := if "Status" ∈ df.columns then
          df.rows.countP (fun r => decide (getVal r "Status" = Value.str "Available")) else 0
        issued := if "Status" ∈ df.columns then
          df.rows.countP (fun r => decide (getVal r "Status" = Value.str "Issued")) else 0
        returned := if "Status" ∈ df.columns then
          df.rows.countP (fun r => decide (getVal r "Status" = Value.str "Returned")) else 0
        damaged := if "Condition" ∈ df.columns then
          df.rows.countP (fun r => decide (getVal r "Condition" = Value.str "Damaged")) else 0
        lost := if "Condition" ∈ df.columns then
          df.rows.countP (fun r => decide (getVal r "Condition" = Value.str "Lost")) else 0
        toBeReplaced := if "Condition" ∈ df.columns then
          df.rows.countP (fun r => decide (getVal r "Condition" = Value.str "To Be Replaced")) else 0 } ∧
    (df.rows = [] → get_book_summary df = ⟨0, 0, 0, 0, 0, 0, 0⟩) := by
  constructor
  · unfold get_book_summary
    split
    next h => simp [h]
    next h => simp [countEq, List.countP_eq_length_filter]
  · intro h
    unfold get_book_summary
    simp [h]

/-- C5: for every collection, `get_flagged_books` returns a sub-collection
of the input in which every record's `Condition` is one of `Damaged`,
`Lost`, `To Be Replaced`, and returns an empty collection when the
`Condition` column is absent or the collection is empty. -/
theorem flagged_books_spec (df : DataFrame) :
    (get_flagged_books df).rows.Sublist df.rows ∧
    (∀ r ∈ (get_flagged_books df).rows, getVal r "Condition" ∈ flagged_conditions) ∧
    ((df.rows = [] ∨ "Condition" ∉ df.columns) → (get_flagged_books df).rows = []) := by
  unfold get_flagged_books
  split
  next h =>
    refine ⟨List.nil_sublist _, ?_, fun _ => rfl⟩
    intro r hr
    simp [emptyDF] at hr
  next h =>
    refine ⟨List.filter_sublist _, ?_, fun hc => absurd hc h⟩
    intro r hr
    exact of_decide_eq_true (List.mem_filter.mp hr).2

/-- C6: for every collection, each status count of `get_book_summary`
(`Available`, `Issued`, `Returned`) is at most its `Total Books` field. -/
theorem summary_counts_bounded (df : DataFrame) :
    (get_book_summary df).available ≤ (get_book_summary df).totalBooks ∧
    (get_book_summary df).issued ≤ (get_book_summary df).totalBooks ∧
    (get_book_summary df).returned ≤ (get_book_summary df).totalBooks := by
  unfold get_book_summary
  split
  · exact ⟨Nat.le_refl 0, Nat.le_refl 0, Nat.le_refl 0⟩
  · refine ⟨?_, ?_, ?_⟩ <;> dsimp only <;> split <;>
      simp [countEq, List.length_filter_le]

/-- C9: none of the five transformations mutates the loaded collection: in
state-passing form each returns the source frame unchanged alongside its
result. -/
theorem transformations_preserve_source (df : DataFrame) (today : Int)
    (threshold : Nat) (field rawQuery : String) :
    (get_book_summary_run df).2 = df ∧
    (get_flagged_books_run df).2 = df ∧
    (get_overdue_books_run df today).2 = df ∧
    (get_underrepresented_genres_run df threshold).2 = df ∧
    (mainSearchStep_run df field rawQuery).2 = df :=
  ⟨rfl, rfl, rfl, rfl, rfl⟩

/-- C7: searching with an empty query returns the input collection itself
(same records, same order), and when neither `Title` nor `Authors` is a
column of the frame the search step is a no-op returning the full
collection unchanged. -/
theorem empty_query_is_noop :
    (∀ (df : DataFrame) (field : String), mainSearchStep df field "" = df) ∧
    (∀ (df : DataFrame) (field rawQuery : String),
      "Title" ∉ df.columns → "Authors" ∉ df.columns →
      mainSearchStep df field rawQuery = df) := by
  constructor
  · intro df field
    unfold mainSearchStep applySearch
    split
    · rfl
    · rfl
  · intro df field rawQuery hT hA
    have hsc : searchColumns df = [] := by
      simp [searchColumns, hT, hA]
    simp [mainSearchStep, hsc]

/-- C10: each of the flagged-condition filter, the overdue filter and a
non-empty-query search yields an order-preserving sub-sequence of the input
rows: `List.Sublist` states exactly that every returned record occurs in
the input and any two returned records keep their relative input order. -/
theorem ordered_subsequence_outputs (df : DataFrame) (today : Int)
    (field rawQuery : String) (hq : strLower rawQuery ≠ "") :
    (get_flagged_books df).rows.Sublist df.rows ∧
    (get_overdue_books df today).rows.Sublist df.rows ∧
    (applySearch df field rawQuery).rows.Sublist df.rows := by
  refine ⟨?_, ?_, ?_⟩
  · unfold get_flagged_books
    split
    · exact List.nil_sublist _
    · exact List.filter_sublist _
  · unfold get_overdue_books
    split
    · exact List.nil_sublist _
    · dsimp only
      split
      · exact List.nil_sublist _
      · split
        · exact (List.filter_sublist _).trans (List.filter_sublist _)
        · exact (List.filter_sublist _).trans (List.filter_sublist _)
  · show (if strLower rawQuery = "" then df
      else { columns := df.columns,
             rows := df.rows.filter (rowMatches field (strLower rawQuery)) }).rows.Sublist df.rows
    rw [if_neg hq]
    exact List.filter_sublist _

/-- Witness for C10 at the loaded sample dataset and the query `orwell`. -/
theorem ordered_subsequence_outputs_witness :
    (get_flagged_books sample_data).rows.Sublist sample_data.rows ∧
    (get_overdue_books sample_data probeNow).rows.Sublist sample_data.rows ∧
    (applySearch sample_data "Authors" "orwell").rows.Sublist sample_data.rows :=
  ordered_subsequence_outputs sample_data probeNow "Authors" "orwell" (by decide)

/-- C8: a serialization failure of the backend is absorbed by
`convert_df_to_excel` — the caller sees `none` and `main` offers no
download — while a successful export yields the workbook: for the backend
modelled from the spec, one sheet whose header row is the attribute names
and which has one data row per record. -/
theorem export_error_and_success (df : DataFrame)
    (backend : DataFrame → Except String Spreadsheet) :
    (∀ e, backend df = Except.error e →
      convert_df_to_excel df backend = none ∧
      offersDownload (convert_df_to_excel df backend) = false) ∧
    (∀ s, backend df = Except.ok s → convert_df_to_excel df backend = some s) ∧
    convert_df_to_excel df (fun d => Except.ok (writeSpreadsheet d))
      = some (writeSpreadsheet df) ∧
    (writeSpreadsheet df).sheets.length = 1 ∧
    (∀ sh ∈ (writeSpreadsheet df).sheets,
      sh.header = df.columns ∧ sh.cells.length = df.rows.length) := by
  refine ⟨?_, ?_, rfl, rfl, ?_⟩
  · intro e h
    unfold convert_df_to_excel offersDownload
    rw [h]
    exact ⟨rfl, rfl⟩
  · intro s h
    unfold convert_df_to_excel
    rw [h]
  · intro sh hsh
    simp only [writeSpreadsheet, List.mem_singleton] at hsh
    subst hsh
    exact ⟨rfl, List.length_map _ _⟩

/-- C1: when the schema has `Status` and `Issue_Date` columns, the overdue
filter keeps exactly the records with `Status = Issued`, a present
`Issue_Date` whose elapsed whole days against the evaluation instant exceed
30 (`issueOverdue` is false on every non-date cell and floors fractional
days), and — whenever `Return_Date` is in the schema — a missing
`Return_Date`; with `Status` or `Issue_Date` absent it returns the empty
collection.  In particular a record issued 45 days before evaluation with
no return is kept, the same record with a recorded return is dropped, and
a record issued 10 days before evaluation is dropped. -/
theorem overdue_books_spec :
    (∀ (df : DataFrame) (today : Int),
      (get_overdue_books df today).rows =
        if "Status" ∈ df.columns ∧ "Issue_Date" ∈ df.columns then
          df.rows.filter (fun r =>
            decide (getVal r "Status" = Value.str "Issued") &&
            (issueOverdue today (getVal r "Issue_Date") &&
              (decide ("Return_Date" ∉ df.columns) || isNa (getVal r "Return_Date"))))
        else []) ∧
    (get_overdue_books overdueFrame45 probeNow).rows = [rowIssued45] ∧
    (get_overdue_books overdueFrame45Returned probeNow).rows = [] ∧
    (get_overdue_books overdueFrame10 probeNow).rows = [] := by
  refine ⟨?_, by decide, by decide, by decide⟩
  intro df today
  unfold get_overdue_books
  split
  next h =>
    by_cases hp : "Status" ∈ df.columns ∧ "Issue_Date" ∈ df.columns
    · have hrows : df.rows = [] := by tauto
      rw [if_pos hp, hrows]
      rfl
    · rw [if_neg hp]
      rfl
  next h =>
    push_neg at h
    obtain ⟨hrows, hS, hI⟩ := h
    have hp : "Status" ∈ df.columns ∧ "Issue_Date" ∈ df.columns := ⟨hS, hI⟩
    rw [if_pos hp, filter_and_split]
    dsimp only
    split
    next hie =>
      rw [hie]
      rfl
    next hie =>
      split
      next hrd =>
        dsimp only
        refine List.filter_congr ?_
        intro r _
        have hd : decide ("Return_Date" ∉ df.columns) = false := by
          simp [hrd]
        rw [hd]
        cases isNa (getVal r "Return_Date") <;>
          cases issueOverdue today (getVal r "Issue_Date") <;> rfl
      next hrd =>
        dsimp only
        refine List.filter_congr ?_
        intro r _
        have hd : decide ("Return_Date" ∉ df.columns) = true := decide_eq_true hrd
        rw [hd]
        cases issueOverdue today (getVal r "Issue_Date") <;> rfl

/-- Occurrence counting distributes from rows to the extracted string cells:
counting a value among the string cells of a column equals the number of
rows whose cell at that column is that string. -/
theorem count_colStrValues (df : DataFrame) (col c : String) :
    (colStrValues df col).count c =
      (df.rows.filter (fun r => decide (getVal r col = Value.str c))).length := by
  unfold colStrValues
  induction df.rows with
  | nil => rfl
  | cons r rs ih =>
    rw [List.filterMap_cons, List.filter_cons]
    cases hv : getVal r col with
    | str s =>
      by_cases hcs : s = c
      · subst hcs
        simp [hv, List.count_cons, ih]
      · simp [hv, hcs, List.count_cons, ih, Ne.symm hcs]
    | int n => simp [hv, ih]
    | date t => simp [hv, ih]
    | null => simp [hv, ih]

/-- C2: the underrepresented-category detector returns a duplicate-free
mapping holding exactly the category values that occur in the collection
with a count strictly below the threshold, each paired with its count (so
a category at exactly the threshold is excluded), and the empty mapping
when the collection is empty or the `Category` column is absent. -/
theorem underrepresented_genres_spec (df : DataFrame) (threshold : Nat) :
    (∀ (c : String) (n : Nat),
      (c, n) ∈ get_underrepresented_genres df threshold ↔
        (df.rows ≠ [] ∧ "Category" ∈ df.columns ∧
         n = categoryOccurrences df c ∧ 0 < n ∧ n < threshold)) ∧
    ((get_underrepresented_genres df threshold).map Prod.fst).Nodup ∧
    ((df.rows = [] ∨ "Category" ∉ df.columns) →
      get_underrepresented_genres df threshold = []) := by
  unfold get_underrepresented_genres
  split
  next h =>
    refine ⟨?_, by simp, fun _ => rfl⟩
    intro c n
    constructor
    · intro hmem
      exact absurd hmem (List.not_mem_nil _)
    · rintro ⟨hne, hc, -⟩
      rcases h with h | h
      · exact absurd h hne
      · exact absurd hc h
  next h =>
    push_neg at h
    obtain ⟨hrows, hcat⟩ := h
    have hkeys : (value_counts (colStrValues df "Category")).map Prod.fst =
        (colStrValues df "Category").dedup := by
      unfold value_counts
      rw [List.map_map]
      have hid : (Prod.fst ∘ fun c : String =>
          (c, (colStrValues df "Category").count c)) = id := rfl
      rw [hid, List.map_id]
    refine ⟨?_, ?_, ?_⟩
    · intro c n
      rw [List.mem_filter]
      constructor
      · rintro ⟨hmem, hlt⟩
        rw [value_counts, List.mem_map] at hmem
        obtain ⟨a, ha, hpair⟩ := hmem
        rw [Prod.mk.injEq] at hpair
        obtain ⟨hac, hcount⟩ := hpair
        subst hac
        have hmemv : a ∈ colStrValues df "Category" := List.mem_dedup.mp ha
        have hpos : 0 < (colStrValues df "Category").count a :=
          List.count_pos_iff.mpr hmemv
        rw [count_colStrValues] at hcount hpos
        exact ⟨hrows, hcat, hcount.symm,
          hcount ▸ hpos, of_decide_eq_true hlt⟩
      · rintro ⟨-, -, hn, hpos, hlt⟩
        have hcnt : (colStrValues df "Category").count c = n := by
          rw [count_colStrValues]
          exact hn.symm
        have hmemv : c ∈ colStrValues df "Category" :=
          List.count_pos_iff.mp (hcnt ▸ hpos)
        refine ⟨?_, decide_eq_true hlt⟩
        rw [value_counts, List.mem_map]
        exact ⟨c, List.mem_dedup.mpr hmemv, by rw [hcnt]⟩
    · have hsub : ((value_counts (colStrValues df "Category")).filter
          (fun p => decide (p.2 < threshold))).map Prod.fst |>.Sublist
          ((value_counts (colStrValues df "Category")).map Prod.fst) :=
        (List.filter_sublist _).map Prod.fst
      exact hsub.nodup (hkeys ▸ List.nodup_dedup _)
    · rintro (hc | hc)
      · exact absurd hc hrows
      · exact absurd hcat hc

/-- C3 probe: searching `Authors` for `orwell` over the sample dataset
returns exactly the George Orwell record — but over a frame holding a
record whose `Authors` cell is missing, the query `nan` returns exactly
that record: `astype(str)` (line 143) renders the missing cell as the
string `nan` before `str.contains` runs, so the `na=False` fill never
applies and a null field value can match. -/
theorem search_null_field_matches_nan :
    getVal rowNoAuthor "Authors" = Value.null ∧
    (applySearch searchProbeFrame "Authors" "nan").rows = [rowNoAuthor] ∧
    (applySearch sample_data "Authors" "orwell").rows = [rowNineteenEightyFour] := by
  decide

end LibraryDashboard
